import Mathlib

/-!
Shallow embedding of the terraform-provider-n8ncloud repository
(Go sources: internal/client and internal/provider), together with
theorems settling the specification claims about it.

Terraform framework values (types.String, types.Bool, types.Int64) are
modelled as three-valued cells (null / unknown / value), matching the
semantics of IsNull, IsUnknown, ValueString, ValueInt64 used by the code.
The network is modelled as an oracle function passed to each operation,
and each operation returns its diagnostics, the state it wrote (none when
State.Set was never reached) and the trace of client calls it issued.
-/

namespace N8nCloud

/-- Go time.Time values only flow through this code via Format(time.RFC3339);
the type and its formatter are Go standard library, external to the repo,
so a time value is modelled by the RFC 3339 string that Format produces. -/
structure GoTime where
  rfc3339 : String
deriving DecidableEq

/-- Models t.Format(time.RFC3339) on a Go time.Time. -/
def GoTime.formatRFC3339 (t : GoTime) : String :=
  t.rfc3339

/-- Terraform framework types.String: null, unknown, or a known string. -/
inductive TfString where
  | null
  | unknown
  | value (s : String)
deriving DecidableEq

/-- types.String.IsNull. -/
def TfString.isNull : TfString → Bool
  | .null => true
  | _ => false

/-- types.String.IsUnknown. -/
def TfString.isUnknown : TfString → Bool
  | .unknown => true
  | _ => false

/-- types.String.ValueString: the known value, or "" for null/unknown. -/
def TfString.valueString : TfString → String
  | .value s => s
  | _ => ""

/-- Terraform framework types.Bool. -/
inductive TfBool where
  | null
  | unknown
  | value (b : Bool)
deriving DecidableEq

/-- Terraform framework types.Int64. -/
inductive TfInt64 where
  | null
  | unknown
  | value (n : Int)
deriving DecidableEq

/-- types.Int64.IsNull. -/
def TfInt64.isNull : TfInt64 → Bool
  | .null => true
  | _ => false

/-- types.Int64.ValueInt64: the known value, or 0 for null/unknown. -/
def TfInt64.valueInt64 : TfInt64 → Int
  | .value n => n
  | _ => 0

/-- The role object dereferenced as user.GlobalRole.Name at
user_data_source.go:155-156. The snapshot of the client package declares
User.Role as a plain string; the data-source mapping additionally reads a
GlobalRole pointer field, modelled from that usage as an optional record
with a Name. -/
structure GlobalRole where
  name : String
deriving DecidableEq

/-- client.User (internal/client types): the n8n user record as decoded
from the API. Pointer-typed optional fields (FirstName, LastName) are
Option; Role and InviteAcceptUrl are plain strings whose Go zero value ""
marks absence (json omitempty). -/
structure User where
  id : String
  email : String
  firstName : Option String
  lastName : Option String
  isPending : Bool
  createdAt : GoTime
  updatedAt : GoTime
  role : String
  inviteAcceptUrl : String
  globalRole : Option GlobalRole
deriving DecidableEq

/-- client.ErrorResponse: the structured error body the API may return. -/
structure ErrorResponse where
  code : String
  message : String
  hint : String
deriving DecidableEq

/-- The errors Client.doRequest and the typed client operations return,
identified by the fmt.Errorf format that produced them. -/
inductive ClientError where
  | apiError (code message : String)
  | httpError (status : Nat) (body : String)
  | transport (msg : String)
deriving DecidableEq

/-- The text of the Go error value (the %s a caller interpolates). -/
def ClientError.message : ClientError → String
  | .apiError c m => "API error: " ++ c ++ " - " ++ m
  | .httpError s b => "HTTP " ++ toString s ++ ": " ++ b
  | .transport m => m

/-- An HTTP response as seen by Client.doRequest after reading the body. -/
structure HttpResponse where
  status : Nat
  body : String
deriving DecidableEq

/-- The error-classification tail of Client.doRequest (resource.tf
transport part, lines 112-120): on status >= 400 try to decode an
ErrorResponse from the body (json.Unmarshal is standard library, passed
here as the decode oracle) and report code/message on success or the raw
status and body on failure; below 400 the raw body is returned.
Source name: Client.doRequest. -/
def Client.doRequestResult (resp : HttpResponse)
    (decodeErrorResponse : String → Option ErrorResponse) :
    Except ClientError String :=
  if resp.status ≥ 400 then
    match decodeErrorResponse resp.body with
    | some e => .error (.apiError e.code e.message)
    | none => .error (.httpError resp.status resp.body)
  else
    .ok resp.body

/-- Client.GetUser (users.go:28-42): GET /users/{id}, then decode a
UserResponse (json.Unmarshal modelled as the decode oracle). The
transport is the oracle http : method → path → result. -/
def Client.GetUser (http : String → String → Except ClientError String)
    (decodeUser : String → Option User) (id : String) :
    Except ClientError User :=
  match http "GET" ("/users/" ++ id) with
  | .error e => .error e
  | .ok body =>
    match decodeUser body with
    | some u => .ok u
    | none => .error (.transport "failed to unmarshal user response")

/-- Client.GetUserByEmail (users.go:44-48): delegates to GetUser, since
the API uses the email in the same URL slot. -/
def Client.GetUserByEmail (http : String → String → Except ClientError String)
    (decodeUser : String → Option User) (email : String) :
    Except ClientError User :=
  Client.GetUser http decodeUser email

/-- One diagnostic added via resp.Diagnostics.AddError. -/
structure Diag where
  summary : String
  detail : String
deriving DecidableEq

/-- The typed client calls a lifecycle method can issue. GetUserByEmail
delegates to GetUser (users.go:47) so both appear as getUser. -/
inductive ApiCall where
  | getUser (ident : String)
  | createUser (email role : String)
  | updateUserRole (id newRole : String)
  | deleteUser (id : String)
deriving DecidableEq

/-- UserDataSourceModel (user_data_source.go:30-40). -/
structure UserDataSourceModel where
  id : TfString
  email : TfString
  role : TfString
  firstName : TfString
  lastName : TfString
  isPending : TfBool
  createdAt : TfString
  updatedAt : TfString
  inviteAcceptURL : TfString
deriving DecidableEq

/-- Outcome of a data-source Read: diagnostics, the state written by
resp.State.Set (none when the method returned first), and the client
calls issued. -/
structure DsReadOutcome where
  diags : List Diag
  state : Option UserDataSourceModel
  calls : List ApiCall
deriving DecidableEq

/-- The response-to-model mapping of UserDataSource.Read
(user_data_source.go:148-177), applied to the model read from config. -/
def mapUserToDataSourceModel (data : UserDataSourceModel) (user : User) :
    UserDataSourceModel :=
  { data with
    id := .value user.id
    email := .value user.email
    isPending := .value user.isPending
    createdAt := .value user.createdAt.formatRFC3339
    updatedAt := .value user.updatedAt.formatRFC3339
    role := (match user.globalRole with
      | some g => .value g.name
      | none => .null)
    firstName := (match user.firstName with
      | some s => .value s
      | none => .null)
    lastName := (match user.lastName with
      | some s => .value s
      | none => .null)
    inviteAcceptURL :=
      if user.inviteAcceptUrl ≠ "" then .value user.inviteAcceptUrl
      else .null }

/-- The identifier the data source queries with (user_data_source.go:137-141):
the id when it is non-null, otherwise the email. -/
def dsLookupIdent (cfg : UserDataSourceModel) : String :=
  if !cfg.id.isNull then cfg.id.valueString else cfg.email.valueString

/-- UserDataSource.Read (user_data_source.go:114-181). The client is the
oracle ident → user-or-error; GetUser and GetUserByEmail are one oracle
because GetUserByEmail delegates to GetUser. -/
def UserDataSource.Read (cfg : UserDataSourceModel)
    (client : String → Except ClientError User) : DsReadOutcome :=
  if cfg.id.isNull && cfg.email.isNull then
    { diags := [⟨"Missing Attribute",
        "Either \x27id\x27 or \x27email\x27 must be specified"⟩],
      state := none, calls := [] }
  else
    match client (dsLookupIdent cfg) with
    | .error e =>
      { diags := [⟨"Client Error",
          "Unable to read user, got error: " ++ e.message⟩],
        state := none, calls := [.getUser (dsLookupIdent cfg)] }
    | .ok user =>
      { diags := [], state := some (mapUserToDataSourceModel cfg user),
        calls := [.getUser (dsLookupIdent cfg)] }

/-- UserResourceModel (user_data_source.go resource part, lines 217-227). -/
structure UserResourceModel where
  id : TfString
  email : TfString
  role : TfString
  firstName : TfString
  lastName : TfString
  isPending : TfBool
  createdAt : TfString
  updatedAt : TfString
  inviteAcceptURL : TfString
deriving DecidableEq

/-- Outcome of a resource lifecycle method: diagnostics, the state written
by resp.State.Set (none when it was never reached; Delete never writes),
and the client calls issued. -/
structure ResourceOutcome where
  diags : List Diag
  state : Option UserResourceModel
  calls : List ApiCall
deriving DecidableEq

/-- client.CreateUserRequest. -/
structure CreateUserRequest where
  email : String
  role : String
  firstName : String
  lastName : String
deriving DecidableEq

/-- The CreateUserRequest built by UserResource.Create (lines 325-328):
only Email and Role are set, the other fields stay at their Go zero value. -/
def createUserRequestOfPlan (plan : UserResourceModel) : CreateUserRequest :=
  { email := plan.email.valueString
    role := plan.role.valueString
    firstName := ""
    lastName := "" }

/-- UserResource.Create (resource part, lines 314-374). The createUser
oracle stands for Client.CreateUser. -/
def UserResource.Create (plan : UserResourceModel)
    (createUser : CreateUserRequest → Except ClientError User) :
    ResourceOutcome :=
  match createUser (createUserRequestOfPlan plan) with
  | .error e =>
    { diags := [⟨"Client Error",
        "Unable to create user, got error: " ++ e.message⟩],
      state := none
      calls := [.createUser (createUserRequestOfPlan plan).email
        (createUserRequestOfPlan plan).role] }
  | .ok user =>
    { diags := []
      state := some { plan with
        id := .value user.id
        isPending := .value user.isPending
        createdAt := .value user.createdAt.formatRFC3339
        updatedAt := .value user.updatedAt.formatRFC3339
        role := if user.role ≠ "" then .value user.role else plan.role
        firstName := (match user.firstName with
          | some s => .value s
          | none => .null)
        lastName := (match user.lastName with
          | some s => .value s
          | none => .null)
        inviteAcceptURL :=
          if user.inviteAcceptUrl ≠ "" then .value user.inviteAcceptUrl
          else .null }
      calls := [.createUser (createUserRequestOfPlan plan).email
        (createUserRequestOfPlan plan).role] }

/-- UserResource.Read (resource part, lines 376-424): re-fetch by the id
from prior state and overwrite every attribute except id. -/
def UserResource.Read (prior : UserResourceModel)
    (getUser : String → Except ClientError User) : ResourceOutcome :=
  match getUser prior.id.valueString with
  | .error e =>
    { diags := [⟨"Client Error",
        "Unable to read user, got error: " ++ e.message⟩],
      state := none, calls := [.getUser prior.id.valueString] }
  | .ok user =>
    { diags := []
      state := some { prior with
        email := .value user.email
        isPending := .value user.isPending
        createdAt := .value user.createdAt.formatRFC3339
        updatedAt := .value user.updatedAt.formatRFC3339
        role := if user.role ≠ "" then .value user.role else prior.role
        firstName := (match user.firstName with
          | some s => .value s
          | none => .null)
        lastName := (match user.lastName with
          | some s => .value s
          | none => .null)
        inviteAcceptURL :=
          if user.inviteAcceptUrl ≠ "" then .value user.inviteAcceptUrl
          else .null }
      calls := [.getUser prior.id.valueString] }

/-- UserResource.Update (resource part, lines 426-457): update the role,
re-fetch, and refresh only updated_at in the plan data before storing it. -/
def UserResource.Update (plan : UserResourceModel)
    (updateUserRole : String → String → Except ClientError Unit)
    (getUser : String → Except ClientError User) : ResourceOutcome :=
  match updateUserRole plan.id.valueString plan.role.valueString with
  | .error e =>
    { diags := [⟨"Client Error",
        "Unable to update user role, got error: " ++ e.message⟩],
      state := none
      calls := [.updateUserRole plan.id.valueString plan.role.valueString] }
  | .ok _ =>
    match getUser plan.id.valueString with
    | .error e =>
      { diags := [⟨"Client Error",
          "Unable to read updated user, got error: " ++ e.message⟩],
        state := none
        calls := [.updateUserRole plan.id.valueString plan.role.valueString,
          .getUser plan.id.valueString] }
    | .ok user =>
      { diags := []
        state := some { plan with
          updatedAt := .value user.updatedAt.formatRFC3339 }
        calls := [.updateUserRole plan.id.valueString plan.role.valueString,
          .getUser plan.id.valueString] }

/-- UserResource.Delete (resource part, lines 459-476): delete by the id
from prior state; no State.Set call exists in this method. -/
def UserResource.Delete (prior : UserResourceModel)
    (deleteUser : String → Except ClientError Unit) : ResourceOutcome :=
  match deleteUser prior.id.valueString with
  | .error e =>
    { diags := [⟨"Client Error",
        "Unable to delete user, got error: " ++ e.message⟩],
      state := none, calls := [.deleteUser prior.id.valueString] }
  | .ok _ =>
    { diags := [], state := none, calls := [.deleteUser prior.id.valueString] }

/-- Outcome of ImportState: diagnostics, the attribute writes performed by
resp.State.SetAttribute in order (root path, value), and the calls issued. -/
structure ImportOutcome where
  diags : List Diag
  writes : List (String × String)
  calls : List ApiCall
deriving DecidableEq

/-- UserResource.ImportState (resource part, lines 478-492): the import ID
is used as an email, resolved with one GetUser call, and only the id and
email attributes are seeded into state. -/
def UserResource.ImportState (importID : String)
    (getUser : String → Except ClientError User) : ImportOutcome :=
  match getUser importID with
  | .error e =>
    { diags := [⟨"Client Error",
        "Unable to get user by email " ++ importID ++ ", got error: "
          ++ e.message⟩],
      writes := [], calls := [.getUser importID] }
  | .ok user =>
    { diags := []
      writes := [("id", user.id), ("email", user.email)]
      calls := [.getUser importID] }

/-- N8nCloudProviderModel (provider.go:37-41). -/
structure N8nCloudProviderModel where
  apiKey : TfString
  instanceURL : TfString
  timeout : TfInt64
deriving DecidableEq

/-- The process environment the provider reads (os.Getenv returns "" for
an unset variable). -/
structure ProviderEnv where
  n8nApiKey : String
  n8nInstanceURL : String
deriving DecidableEq

/-- client.Config. Timeout is held in seconds; Configure passes
time.Duration(timeout) * time.Second. -/
structure ClientConfig where
  baseURL : String
  apiKey : String
  timeoutSeconds : Int
deriving DecidableEq

/-- client.Client as constructed by NewClient (base URL, key, an HTTP
client with the resolved timeout). -/
structure Client where
  baseURL : String
  apiKey : String
  timeoutSeconds : Int
deriving DecidableEq

/-- client.NewClient (transport part, lines 56-76): reject empty base URL
or API key, and substitute the 30-second default for a zero timeout. -/
def NewClient (config : ClientConfig) : Except String Client :=
  if config.baseURL = "" then .error "base URL is required"
  else if config.apiKey = "" then .error "API key is required"
  else
    .ok { baseURL := config.baseURL
          apiKey := config.apiKey
          timeoutSeconds :=
            if config.timeoutSeconds = 0 then 30 else config.timeoutSeconds }

/-- One diagnostic of Configure; AddAttributeError carries the attribute
path, AddError leaves it empty. -/
structure AttrDiag where
  attrPath : String
  summary : String
  detail : String
deriving DecidableEq

/-- Outcome of provider Configure: diagnostics and the client stored into
resp.DataSourceData / resp.ResourceData (none when none was constructed). -/
structure ConfigureOutcome where
  diags : List AttrDiag
  client : Option Client
deriving DecidableEq

/-- The api_key value resolved by Configure (provider.go:103-109):
environment default overridden by a non-null configuration value. -/
def resolvedApiKey (cfg : N8nCloudProviderModel) (env : ProviderEnv) : String :=
  if !cfg.apiKey.isNull then cfg.apiKey.valueString else env.n8nApiKey

/-- The instance_url value resolved by Configure (provider.go:104-113). -/
def resolvedInstanceURL (cfg : N8nCloudProviderModel) (env : ProviderEnv) :
    String :=
  if !cfg.instanceURL.isNull then cfg.instanceURL.valueString
  else env.n8nInstanceURL

/-- The timeout resolved by Configure (provider.go:105-117): the built-in
default 30 overridden by a non-null configuration value; no environment
variable exists for it. -/
def resolvedTimeout (cfg : N8nCloudProviderModel) : Int :=
  if !cfg.timeout.isNull then cfg.timeout.valueInt64 else 30

/-- N8nCloudProvider.Configure (provider.go:69-164): diagnostics for
unknown values, then resolution, then diagnostics for empty required
values, then client construction via NewClient. -/
def N8nCloudProvider.Configure (cfg : N8nCloudProviderModel)
    (env : ProviderEnv) : ConfigureOutcome :=
  let unknownDiags : List AttrDiag :=
    (if cfg.apiKey.isUnknown then
      [⟨"api_key", "Unknown n8n Cloud API Key",
        "The provider cannot create the n8n Cloud API client as there is an unknown configuration value for the n8n Cloud API key. Either target apply the source of the value first, set the value statically in the configuration, or use the N8N_API_KEY environment variable."⟩]
     else []) ++
    (if cfg.instanceURL.isUnknown then
      [⟨"instance_url", "Unknown n8n Cloud Instance URL",
        "The provider cannot create the n8n Cloud API client as there is an unknown configuration value for the n8n Cloud instance URL. Either target apply the source of the value first, set the value statically in the configuration, or use the N8N_INSTANCE_URL environment variable."⟩]
     else [])
  if unknownDiags ≠ [] then { diags := unknownDiags, client := none }
  else
    let apiKey := resolvedApiKey cfg env
    let instanceURL := resolvedInstanceURL cfg env
    let timeout := resolvedTimeout cfg
    let missingDiags : List AttrDiag :=
      (if apiKey = "" then
        [⟨"api_key", "Missing n8n Cloud API Key",
          "The provider cannot create the n8n Cloud API client as there is a missing or empty value for the n8n Cloud API key. Set the api_key value in the configuration or use the N8N_API_KEY environment variable. If either is already set, ensure the value is not empty."⟩]
       else []) ++
      (if instanceURL = "" then
        [⟨"instance_url", "Missing n8n Cloud Instance URL",
          "The provider cannot create the n8n Cloud API client as there is a missing or empty value for the n8n Cloud instance URL. Set the instance_url value in the configuration or use the N8N_INSTANCE_URL environment variable. If either is already set, ensure the value is not empty."⟩]
       else [])
    if missingDiags ≠ [] then { diags := missingDiags, client := none }
    else
      match NewClient
          { baseURL := instanceURL, apiKey := apiKey,
            timeoutSeconds := timeout } with
      | .error e =>
        { diags := [⟨"", "Unable to create n8n Cloud API Client",
            "An unexpected error occurred when creating the n8n Cloud API client: " ++ e⟩],
          client := none }
      | .ok c => { diags := [], client := some c }

/-! Concrete fixtures used by counterexamples and witnesses. -/

/-- A data-source model with every attribute null (nothing configured). -/
def dsNull : UserDataSourceModel :=
  { id := .null, email := .null, role := .null, firstName := .null,
    lastName := .null, isPending := .null, createdAt := .null,
    updatedAt := .null, inviteAcceptURL := .null }

/-- Data-source configuration looking up a nonexistent id. -/
def dsConfigById : UserDataSourceModel :=
  { dsNull with id := .value "non-existent-id" }

/-- Data-source configuration looking up a nonexistent email. -/
def dsConfigByEmail : UserDataSourceModel :=
  { dsNull with email := .value "non-existent@example.com" }

/-- Data-source configuration supplying both id and email. -/
def dsConfigBoth : UserDataSourceModel :=
  { dsNull with id := .value "id-1", email := .value "config@example.com" }

/-- A client whose lookup always misses: the API answers 404 with a
structured body, so doRequest yields ClientError.apiError. -/
def notFoundClient : String → Except ClientError User :=
  fun _ => .error (.apiError "404" "user not found")

/-- A concrete user record as the server could return it. -/
def okUser : User :=
  { id := "id-1", email := "server@example.com", firstName := some "Ada",
    lastName := none, isPending := true,
    createdAt := ⟨"2024-01-01T00:00:00Z"⟩,
    updatedAt := ⟨"2024-01-02T00:00:00Z"⟩,
    role := "global:member", inviteAcceptUrl := "",
    globalRole := some ⟨"global:member"⟩ }

/-- A client that always finds okUser. -/
def okClient : String → Except ClientError User := fun _ => .ok okUser

/-- A resource model with every attribute null. -/
def rNull : UserResourceModel :=
  { id := .null, email := .null, role := .null, firstName := .null,
    lastName := .null, isPending := .null, createdAt := .null,
    updatedAt := .null, inviteAcceptURL := .null }

/-- A create plan: required attributes configured, computed ones unknown. -/
def planCreate : UserResourceModel :=
  { rNull with
    email := .value "a@example.com"
    role := .value "global:member"
    id := .unknown
    isPending := .unknown
    createdAt := .unknown
    updatedAt := .unknown
    firstName := .unknown
    lastName := .unknown
    inviteAcceptURL := .unknown }

/-- An update plan: id known from state, role changed in configuration. -/
def planUpdate : UserResourceModel :=
  { rNull with
    id := .value "id-1"
    email := .value "a@example.com"
    role := .value "global:admin"
    isPending := .value true
    createdAt := .value "2024-01-01T00:00:00Z"
    updatedAt := .value "2024-01-02T00:00:00Z" }

/-- A created user the server echoes back with an empty role field. -/
def createdNoRole : User :=
  { okUser with
    role := ""
    firstName := none
    inviteAcceptUrl := "https://example.com/accept" }

/-- A create oracle echoing createdNoRole. -/
def createClientNoRole : CreateUserRequest → Except ClientError User :=
  fun _ => .ok createdNoRole

/-- A create oracle that fails with a transport error. -/
def failCreateClient : CreateUserRequest → Except ClientError User :=
  fun _ => .error (.transport "connection refused")

/-- An updateRole oracle that succeeds. -/
def updOkClient : String → String → Except ClientError Unit :=
  fun _ _ => .ok ()

/-- A transport oracle answering every request with a fixed body. -/
def httpA : String → String → Except ClientError String :=
  fun _ _ => .ok "body"

/-- A transport oracle that differs from httpA only on DELETE requests. -/
def httpB : String → String → Except ClientError String :=
  fun m _ => if m = "DELETE" then .error (.transport "no") else .ok "body"

/-- A decode oracle for user responses. -/
def decodeA : String → Option User := fun _ => some okUser

/-- Provider configuration leaving api_key to the (empty) environment. -/
def cfgNoKey : N8nCloudProviderModel :=
  { apiKey := .null, instanceURL := .value "https://x.app.n8n.cloud",
    timeout := .null }

/-- Provider configuration with everything set explicitly. -/
def cfgFull : N8nCloudProviderModel :=
  { apiKey := .value "k", instanceURL := .value "https://x.app.n8n.cloud",
    timeout := .value 60 }

/-- An environment with neither N8N_API_KEY nor N8N_INSTANCE_URL set. -/
def envEmpty : ProviderEnv := { n8nApiKey := "", n8nInstanceURL := "" }

/-- An environment with both variables set. -/
def envFull : ProviderEnv :=
  { n8nApiKey := "envkey", n8nInstanceURL := "https://env.example.com" }

/-! Claim theorems. -/

/-- Claim C1 (code bug evidence): on a lookup miss the data source reports
the generic diagnostic "Client Error: Unable to read user, got error: ..."
and the by-id and by-email diagnostics are the identical text — the
message neither embeds the offending identifier itself nor distinguishes
the kind of identifier, while the repository test
TestAccUserDataSource_notFound expects the distinct messages
User with ID "non-existent-id" not found and
User with email "non-existent@example.com" not found. -/
theorem userDataSource_notFound_message_is_generic :
    (UserDataSource.Read dsConfigById notFoundClient).diags =
      [⟨"Client Error",
        "Unable to read user, got error: API error: 404 - user not found"⟩] ∧
    (UserDataSource.Read dsConfigByEmail notFoundClient).diags =
      (UserDataSource.Read dsConfigById notFoundClient).diags :=
  ⟨rfl, rfl⟩

/-- Claim C2 (counterexample): a configuration supplying both id and email
does not satisfy "exactly one of id and email", yet the read raises no
diagnostic and does invoke a client get. -/
theorem userDataSource_both_supplied_passes_validation :
    dsConfigBoth.id.isNull = false ∧ dsConfigBoth.email.isNull = false ∧
    (UserDataSource.Read dsConfigBoth okClient).diags = [] ∧
    (UserDataSource.Read dsConfigBoth okClient).calls = [.getUser "id-1"] :=
  ⟨rfl, rfl, rfl, rfl⟩

/-- Claim C2 (amended): the data-source read validates that at least one
of id and email is supplied: whenever neither is, it reports the Missing
Attribute diagnostic, writes no state, and invokes no client get. -/
theorem userDataSource_requires_id_or_email (cfg : UserDataSourceModel)
    (client : String → Except ClientError User)
    (hid : cfg.id.isNull = true) (hemail : cfg.email.isNull = true) :
    (UserDataSource.Read cfg client).diags =
      [⟨"Missing Attribute",
        "Either \x27id\x27 or \x27email\x27 must be specified"⟩] ∧
    (UserDataSource.Read cfg client).state = none ∧
    (UserDataSource.Read cfg client).calls = [] := by
  unfold UserDataSource.Read
  rw [hid, hemail]
  exact ⟨rfl, rfl, rfl⟩

/-- Witness for the amended C2 at the empty configuration. -/
theorem userDataSource_requires_id_or_email_witness :
    (UserDataSource.Read dsNull okClient).diags =
      [⟨"Missing Attribute",
        "Either \x27id\x27 or \x27email\x27 must be specified"⟩] ∧
    (UserDataSource.Read dsNull okClient).state = none ∧
    (UserDataSource.Read dsNull okClient).calls = [] :=
  userDataSource_requires_id_or_email dsNull okClient rfl rfl

/-- Claim C9: when both id and email are configured, no validation error
is raised, the single lookup uses the id (the configured email never
reaches the query), and on success the stored email is the one the server
returned. -/
theorem userDataSource_both_supplied_uses_id_and_overwrites_email
    (cfg : UserDataSourceModel) (client : String → Except ClientError User)
    (user : User) (hid : cfg.id.isNull = false)
    (_hemail : cfg.email.isNull = false)
    (hok : client cfg.id.valueString = .ok user) :
    (UserDataSource.Read cfg client).diags = [] ∧
    (UserDataSource.Read cfg client).calls = [.getUser cfg.id.valueString] ∧
    (UserDataSource.Read cfg client).state =
      some (mapUserToDataSourceModel cfg user) ∧
    (mapUserToDataSourceModel cfg user).email = .value user.email := by
  unfold UserDataSource.Read dsLookupIdent
  rw [hid]
  rw [show (false && cfg.email.isNull) = false from rfl]
  rw [show (!false) = true from rfl]
  rw [if_pos rfl, hok]
  exact ⟨rfl, rfl, rfl, rfl⟩

/-- Witness for C9 at a both-supplied configuration. -/
theorem userDataSource_both_supplied_witness :
    (UserDataSource.Read dsConfigBoth okClient).diags = [] ∧
    (UserDataSource.Read dsConfigBoth okClient).calls =
      [.getUser dsConfigBoth.id.valueString] ∧
    (UserDataSource.Read dsConfigBoth okClient).state =
      some (mapUserToDataSourceModel dsConfigBoth okUser) ∧
    (mapUserToDataSourceModel dsConfigBoth okUser).email =
      .value okUser.email :=
  userDataSource_both_supplied_uses_id_and_overwrites_email dsConfigBoth
    okClient okUser rfl rfl rfl

/-- Claim C3: a successful Update first calls updateRole and then
re-fetches the user (the call trace is exactly that sequence, in that
order), and the stored state is the incoming plan data with only
updated_at replaced by the re-fetched record's value — id, email, role,
first_name, last_name, is_pending, created_at and invite_accept_url all
keep their plan values. -/
theorem userResource_update_refreshes_only_updatedAt
    (plan : UserResourceModel)
    (updateUserRole : String → String → Except ClientError Unit)
    (getUser : String → Except ClientError User) (user : User)
    (hupd : updateUserRole plan.id.valueString plan.role.valueString
      = .ok ())
    (hget : getUser plan.id.valueString = .ok user) :
    (UserResource.Update plan updateUserRole getUser).calls =
      [.updateUserRole plan.id.valueString plan.role.valueString,
        .getUser plan.id.valueString] ∧
    (UserResource.Update plan updateUserRole getUser).state =
      some { plan with
        updatedAt := .value user.updatedAt.formatRFC3339 } := by
  unfold UserResource.Update
  rw [hupd, hget]
  exact ⟨rfl, rfl⟩

/-- Witness for C3 at a concrete plan, oracles and fetched user. -/
theorem userResource_update_refreshes_only_updatedAt_witness :
    (UserResource.Update planUpdate updOkClient okClient).calls =
      [.updateUserRole planUpdate.id.valueString
        planUpdate.role.valueString,
        .getUser planUpdate.id.valueString] ∧
    (UserResource.Update planUpdate updOkClient okClient).state =
      some { planUpdate with
        updatedAt := .value okUser.updatedAt.formatRFC3339 } :=
  userResource_update_refreshes_only_updatedAt planUpdate updOkClient
    okClient okUser rfl rfl

/-- Claim C4 (counterexample): when the server echoes a created user whose
role field is empty, the stored role is the configured plan value, not the
server's echoed value — the server is not authoritative for every
response it may return. -/
theorem userResource_create_keeps_plan_role_on_empty_echo :
    createdNoRole.role = "" ∧
    (UserResource.Create planCreate createClientNoRole).state.map
      (fun s => s.role) = some (TfString.value "global:member") :=
  ⟨rfl, rfl⟩

/-- Claim C4 (amended): a successful Create stores a state whose id,
is_pending, created_at, updated_at, first_name, last_name and
invite_accept_url come from the server response, and whose role is
overwritten by the echoed role whenever that echo is non-empty; when the
response carries an empty role the configured plan role is kept. -/
theorem userResource_create_populates_computed_fields
    (plan : UserResourceModel)
    (createUser : CreateUserRequest → Except ClientError User) (user : User)
    (hok : createUser (createUserRequestOfPlan plan) = .ok user) :
    ∃ s, (UserResource.Create plan createUser).state = some s ∧
      s.id = .value user.id ∧
      s.isPending = .value user.isPending ∧
      s.createdAt = .value user.createdAt.formatRFC3339 ∧
      s.updatedAt = .value user.updatedAt.formatRFC3339 ∧
      s.firstName = (match user.firstName with
        | some v => TfString.value v
        | none => TfString.null) ∧
      s.lastName = (match user.lastName with
        | some v => TfString.value v
        | none => TfString.null) ∧
      s.inviteAcceptURL = (if user.inviteAcceptUrl ≠ "" then
        TfString.value user.inviteAcceptUrl else TfString.null) ∧
      (user.role ≠ "" → s.role = .value user.role) ∧
      (user.role = "" → s.role = plan.role) := by
  unfold UserResource.Create
  rw [hok]
  refine ⟨_, rfl, rfl, rfl, rfl, rfl, rfl, rfl, rfl, ?_, ?_⟩
  · intro h
    exact if_pos h
  · intro h
    exact if_neg (by simp [h])

/-- Witness for the amended C4 at a server echo with a non-empty role. -/
theorem userResource_create_populates_computed_fields_witness :
    ∃ s, (UserResource.Create planCreate (fun _ => .ok okUser)).state
        = some s ∧
      s.id = .value okUser.id ∧
      s.isPending = .value okUser.isPending ∧
      s.createdAt = .value okUser.createdAt.formatRFC3339 ∧
      s.updatedAt = .value okUser.updatedAt.formatRFC3339 ∧
      s.firstName = (match okUser.firstName with
        | some v => TfString.value v
        | none => TfString.null) ∧
      s.lastName = (match okUser.lastName with
        | some v => TfString.value v
        | none => TfString.null) ∧
      s.inviteAcceptURL = (if okUser.inviteAcceptUrl ≠ "" then
        TfString.value okUser.inviteAcceptUrl else TfString.null) ∧
      (okUser.role ≠ "" → s.role = .value okUser.role) ∧
      (okUser.role = "" → s.role = planCreate.role) :=
  userResource_create_populates_computed_fields planCreate
    (fun _ => .ok okUser) okUser rfl

/-- Claim C5: in every lifecycle method — resource Create, Read, Update
(either of its two calls), Delete, and the data-source Read — a failing
client call makes the method report a Client Error diagnostic carrying the
error and return without writing state (and Delete never writes state at
all), so prior state is never partially overwritten. -/
theorem lifecycle_failure_reports_and_writes_no_state (e : ClientError) :
    (∀ plan createUser,
      createUser (createUserRequestOfPlan plan) = .error e →
      (UserResource.Create plan createUser).diags =
        [⟨"Client Error",
          "Unable to create user, got error: " ++ e.message⟩] ∧
      (UserResource.Create plan createUser).state = none) ∧
    (∀ prior getUser, getUser prior.id.valueString = .error e →
      (UserResource.Read prior getUser).diags =
        [⟨"Client Error",
          "Unable to read user, got error: " ++ e.message⟩] ∧
      (UserResource.Read prior getUser).state = none) ∧
    (∀ plan updateUserRole getUser,
      updateUserRole plan.id.valueString plan.role.valueString
        = .error e →
      (UserResource.Update plan updateUserRole getUser).diags =
        [⟨"Client Error",
          "Unable to update user role, got error: " ++ e.message⟩] ∧
      (UserResource.Update plan updateUserRole getUser).state = none) ∧
    (∀ plan updateUserRole getUser,
      updateUserRole plan.id.valueString plan.role.valueString = .ok () →
      getUser plan.id.valueString = .error e →
      (UserResource.Update plan updateUserRole getUser).diags =
        [⟨"Client Error",
          "Unable to read updated user, got error: " ++ e.message⟩] ∧
      (UserResource.Update plan updateUserRole getUser).state = none) ∧
    (∀ prior deleteUser, deleteUser prior.id.valueString = .error e →
      (UserResource.Delete prior deleteUser).diags =
        [⟨"Client Error",
          "Unable to delete user, got error: " ++ e.message⟩] ∧
      (UserResource.Delete prior deleteUser).state = none) ∧
    (∀ prior deleteUser,
      (UserResource.Delete prior deleteUser).state = none) ∧
    (∀ cfg client, (cfg.id.isNull && cfg.email.isNull) = false →
      client (dsLookupIdent cfg) = .error e →
      (UserDataSource.Read cfg client).diags =
        [⟨"Client Error",
          "Unable to read user, got error: " ++ e.message⟩] ∧
      (UserDataSource.Read cfg client).state = none) := by
  refine ⟨?_, ?_, ?_, ?_, ?_, ?_, ?_⟩
  · intro plan createUser h
    unfold UserResource.Create
    rw [h]
    exact ⟨rfl, rfl⟩
  · intro prior getUser h
    unfold UserResource.Read
    rw [h]
    exact ⟨rfl, rfl⟩
  · intro plan updateUserRole getUser h
    unfold UserResource.Update
    rw [h]
    exact ⟨rfl, rfl⟩
  · intro plan updateUserRole getUser hok h
    unfold UserResource.Update
    rw [hok, h]
    exact ⟨rfl, rfl⟩
  · intro prior deleteUser h
    unfold UserResource.Delete
    rw [h]
    exact ⟨rfl, rfl⟩
  · intro prior deleteUser
    unfold UserResource.Delete
    cases deleteUser prior.id.valueString <;> rfl
  · intro cfg client hcond h
    unfold UserDataSource.Read
    rw [hcond, h]
    exact ⟨rfl, rfl⟩

/-- Witness for C5: the create conjunct at a concrete failing transport. -/
theorem lifecycle_failure_witness :
    (UserResource.Create planCreate failCreateClient).diags =
      [⟨"Client Error",
        "Unable to create user, got error: "
          ++ (ClientError.transport "connection refused").message⟩] ∧
    (UserResource.Create planCreate failCreateClient).state = none :=
  (lifecycle_failure_reports_and_writes_no_state
    (.transport "connection refused")).1 planCreate failCreateClient rfl

/-- Claim C6: for a response with status at least 400 the transport
returns the decoded code and message when the structured error body
decodes, and the raw status and body text when it does not; for a status
below 400 it returns the raw body without error. -/
theorem doRequest_classifies_http_errors (resp : HttpResponse)
    (decodeErrorResponse : String → Option ErrorResponse) :
    (∀ e, resp.status ≥ 400 → decodeErrorResponse resp.body = some e →
      Client.doRequestResult resp decodeErrorResponse =
        .error (.apiError e.code e.message)) ∧
    (resp.status ≥ 400 → decodeErrorResponse resp.body = none →
      Client.doRequestResult resp decodeErrorResponse =
        .error (.httpError resp.status resp.body)) ∧
    (resp.status < 400 →
      Client.doRequestResult resp decodeErrorResponse = .ok resp.body) := by
  refine ⟨?_, ?_, ?_⟩
  · intro e hs hd
    unfold Client.doRequestResult
    rw [if_pos hs, hd]
  · intro hs hd
    unfold Client.doRequestResult
    rw [if_pos hs, hd]
  · intro hs
    unfold Client.doRequestResult
    rw [if_neg (by omega)]

/-- Witness for C6: an undecodable 404 body surfaces the raw status and
body. -/
theorem doRequest_classifies_http_errors_witness :
    Client.doRequestResult ⟨404, "oops"⟩ (fun _ => none) =
      .error (.httpError 404 "oops") :=
  (doRequest_classifies_http_errors ⟨404, "oops"⟩ (fun _ => none)).2.1
    (by decide) rfl

/-- Claim C7: Configure resolves api_key and instance_url as explicit
configuration value over environment variable, and timeout as explicit
value over the built-in default 30 (the only knob with a default); and
whenever api_key or instance_url resolves to empty, diagnostics are
produced and no client is constructed. -/
theorem provider_configure_resolution_and_required_values
    (cfg : N8nCloudProviderModel) (env : ProviderEnv) :
    (∀ v, cfg.apiKey = .value v → resolvedApiKey cfg env = v) ∧
    (cfg.apiKey = .null → resolvedApiKey cfg env = env.n8nApiKey) ∧
    (∀ v, cfg.instanceURL = .value v → resolvedInstanceURL cfg env = v) ∧
    (cfg.instanceURL = .null →
      resolvedInstanceURL cfg env = env.n8nInstanceURL) ∧
    (∀ n, cfg.timeout = .value n → resolvedTimeout cfg = n) ∧
    (cfg.timeout = .null → resolvedTimeout cfg = 30) ∧
    (resolvedApiKey cfg env = "" ∨ resolvedInstanceURL cfg env = "" →
      (N8nCloudProvider.Configure cfg env).client = none ∧
      (N8nCloudProvider.Configure cfg env).diags ≠ []) := by
  refine ⟨?_, ?_, ?_, ?_, ?_, ?_, ?_⟩
  · intro v hv
    simp [resolvedApiKey, hv, TfString.isNull, TfString.valueString]
  · intro hv
    simp [resolvedApiKey, hv, TfString.isNull]
  · intro v hv
    simp [resolvedInstanceURL, hv, TfString.isNull, TfString.valueString]
  · intro hv
    simp [resolvedInstanceURL, hv, TfString.isNull]
  · intro n hn
    simp [resolvedTimeout, hn, TfInt64.isNull, TfInt64.valueInt64]
  · intro hn
    simp [resolvedTimeout, hn, TfInt64.isNull]
  · intro h
    unfold N8nCloudProvider.Configure
    cases hk : cfg.apiKey.isUnknown with
    | true => simp [hk]
    | false =>
      cases hu : cfg.instanceURL.isUnknown with
      | true => simp [hk, hu]
      | false =>
        rcases h with h | h <;> simp [hk, hu, h]

/-- Witness for C7: with api_key left null and an empty environment the
key resolves empty, a diagnostic is produced and no client is built; with
everything explicit the explicit values win over the environment. -/
theorem provider_configure_witness :
    ((N8nCloudProvider.Configure cfgNoKey envEmpty).client = none ∧
      (N8nCloudProvider.Configure cfgNoKey envEmpty).diags ≠ []) ∧
    resolvedApiKey cfgFull envFull = "k" ∧
    resolvedApiKey cfgNoKey envFull = "envkey" ∧
    resolvedTimeout cfgFull = 60 ∧
    resolvedTimeout cfgNoKey = 30 :=
  ⟨(provider_configure_resolution_and_required_values cfgNoKey
      envEmpty).2.2.2.2.2.2 (Or.inl rfl),
    (provider_configure_resolution_and_required_values cfgFull
      envFull).1 "k" rfl,
    (provider_configure_resolution_and_required_values cfgNoKey
      envFull).2.1 rfl,
    (provider_configure_resolution_and_required_values cfgFull
      envFull).2.2.2.2.1 60 rfl,
    (provider_configure_resolution_and_required_values cfgNoKey
      envFull).2.2.2.2.2.1 rfl⟩

/-- Claim C8: a successful import treats the import identifier as an
email, resolves it with a single get call, and seeds exactly the id and
email attributes (in that order) from the resolved record — no other
attribute write happens in the import step. -/
theorem importState_seeds_id_and_email_only (importID : String)
    (getUser : String → Except ClientError User) (user : User)
    (hok : getUser importID = .ok user) :
    (UserResource.ImportState importID getUser).diags = [] ∧
    (UserResource.ImportState importID getUser).calls =
      [.getUser importID] ∧
    (UserResource.ImportState importID getUser).writes =
      [("id", user.id), ("email", user.email)] := by
  unfold UserResource.ImportState
  rw [hok]
  exact ⟨rfl, rfl, rfl⟩

/-- Witness for C8 at a concrete email import. -/
theorem importState_seeds_id_and_email_only_witness :
    (UserResource.ImportState "server@example.com" okClient).diags = [] ∧
    (UserResource.ImportState "server@example.com" okClient).calls =
      [.getUser "server@example.com"] ∧
    (UserResource.ImportState "server@example.com" okClient).writes =
      [("id", okUser.id), ("email", okUser.email)] :=
  importState_seeds_id_and_email_only "server@example.com" okClient
    okUser rfl

/-- Claim C10: GetUserByEmail is the very same operation as GetUser on
the same identifier, and GetUser depends on the transport only through
the single request GET /users/{s}. -/
theorem getUserByEmail_refines_getUser
    (http : String → String → Except ClientError String)
    (decodeUser : String → Option User) (s : String) :
    Client.GetUserByEmail http decodeUser s =
      Client.GetUser http decodeUser s ∧
    (∀ http2 : String → String → Except ClientError String,
      http2 "GET" ("/users/" ++ s) = http "GET" ("/users/" ++ s) →
      Client.GetUser http2 decodeUser s =
        Client.GetUser http decodeUser s) := by
  refine ⟨rfl, ?_⟩
  intro http2 h
  unfold Client.GetUser
  rw [h]

/-- Witness for C10: two transports agreeing on GET /users/x give the
same lookup result, and the email variant coincides with the id variant. -/
theorem getUserByEmail_refines_getUser_witness :
    Client.GetUserByEmail httpA decodeA "x" =
      Client.GetUser httpA decodeA "x" ∧
    Client.GetUser httpB decodeA "x" = Client.GetUser httpA decodeA "x" :=
  ⟨(getUserByEmail_refines_getUser httpA decodeA "x").1,
    (getUserByEmail_refines_getUser httpA decodeA "x").2 httpB rfl⟩

end N8nCloud
